import Mathlib

/-!
Shallow embedding of the process-lifecycle supervisor and command
orchestrator of build.py (functions is_process_running, get_running_pid,
check_status, start_background, stop_background, kill_test_processes and
run_dotnet_command).  File-system and OS effects are modelled by explicit
state passing over a World record; the behaviour of the supervised child
process and of the external toolchain, which the script only observes
through psutil and subprocess, is supplied by explicit behaviour records.
-/

/-- Whitespace characters removed by Python str.strip (ASCII subset). -/
def pySpace (c : Char) : Bool :=
  c = ' ' || c = '\t' || c = '\n' || c = '\r' || c = '\x0b' || c = '\x0c'

/-- Python str.strip: drop leading and trailing whitespace. -/
def pyStrip (s : String) : String :=
  String.mk (((s.data.dropWhile pySpace).reverse.dropWhile pySpace).reverse)

/-- Numeric value of a decimal digit character. -/
def digitVal (c : Char) : Nat := c.toNat - 48

/-- Digits of a Python integer literal after the first digit: decimal digits
with single underscores allowed between digits (Python 3 int() syntax). -/
def pyDigitsRest : Nat → List Char → Option Nat
  | acc, [] => some acc
  | acc, c :: cs =>
    if c.isDigit then pyDigitsRest (10 * acc + digitVal c) cs
    else if c = '_' then
      match cs with
      | [] => none
      | d :: ds => if d.isDigit then pyDigitsRest (10 * acc + digitVal d) ds else none
    else none

/-- A nonempty unsigned digit string per Python int() syntax. -/
def pyDigits : List Char → Option Nat
  | [] => none
  | c :: cs => if c.isDigit then pyDigitsRest (digitVal c) cs else none

/-- Python int(string): optional sign, then digits with underscores allowed
between digits; surrounding whitespace is ignored.  A string that int()
rejects raises ValueError in build.py, modelled here as none. -/
def pyParseInt (s : String) : Option Int :=
  match (pyStrip s).data with
  | '+' :: rest => (pyDigits rest).map (fun n => (n : Int))
  | '-' :: rest => (pyDigits rest).map (fun n => -(n : Int))
  | cs => (pyDigits cs).map (fun n => (n : Int))

/-- What probing one pid through psutil reports: the process does not exist
(psutil.NoSuchProcess), it exists but its status is STATUS_ZOMBIE, the
lookup is denied (psutil.AccessDenied), or it is a live schedulable
process. -/
inductive ProcProbe
  | noSuch
  | zombie
  | denied
  | running
deriving DecidableEq

/-- The state build.py reads and writes: the contents of the .riddle.pid
handle file (none when the file is absent), whether reading that file
raises IOError, the riddle.log contents, and the OS process table as seen
through psutil. -/
structure World where
  pidFile : Option String
  readFails : Bool
  log : List String
  probe : Nat → ProcProbe

/-- build.py is_process_running (lines 204-210): psutil.Process(pid) plus
is_running() and a zombie check, with NoSuchProcess and AccessDenied both
caught and turned into false. -/
def is_process_running (w : World) (pid : Nat) : Bool :=
  match w.probe pid with
  | ProcProbe.running => true
  | _ => false

/-- Remove the persisted pid handle file (PID_FILE.unlink, guarded by an
existence check where build.py does so). -/
def clearPid (w : World) : World := { w with pidFile := none }

/-- Mark a pid as gone from the process table, the effect of the supervised
process exiting or being killed. -/
def setDead (w : World) (p : Nat) : World :=
  { w with probe := fun q => if q = p then ProcProbe.noSuch else w.probe q }

/-- build.py get_running_pid (lines 213-229).  Absent file: none.  IOError
while reading, or int() failing on the stripped contents: the shared
except (ValueError, IOError) handler returns none and leaves the file.
A negative parsed value makes psutil.Process raise ValueError (psutil
rejects negative pids), which the same handler catches, again leaving the
file.  A parsed non-negative pid is probed; if running it is returned,
otherwise the stale handle file is unlinked and none is returned. -/
def get_running_pid (w : World) : World × Option Nat :=
  match w.pidFile with
  | none => (w, none)
  | some s =>
    if w.readFails then (w, none)
    else
      match pyParseInt (pyStrip s) with
      | none => (w, none)
      | some i =>
        if i < 0 then (w, none)
        else if is_process_running w i.toNat then (w, some i.toNat)
        else (clearPid w, none)

/-- What check_status prints. -/
inductive StatusReport
  | running (pid : Nat)
  | notRunning
deriving DecidableEq

/-- build.py check_status (lines 232-241): report Running with the pid when
get_running_pid yields a truthy pid, otherwise report not running.  Python
truthiness makes pid 0 fall into the not-running branch. -/
def check_status (w : World) : World × StatusReport :=
  match get_running_pid w with
  | (w1, some pid) => if pid = 0 then (w1, StatusReport.notRunning) else (w1, StatusReport.running pid)
  | (w1, none) => (w1, StatusReport.notRunning)

/-- What stop_background prints before returning: nothing to stop, a
graceful stop, a forced stop, "Process already stopped", or the fatal
error path that calls sys.exit(1). -/
inductive StopOutcome
  | nothingToStop
  | graceful
  | forced
  | alreadyStopped
  | failed
deriving DecidableEq

/-- Signals sent to the supervised process during one stop_background call. -/
inductive SigEvent
  | termSignal (pid : Nat)
  | killSignal (pid : Nat)
deriving DecidableEq

/-- The graceful wait of process.wait(timeout=10) in build.py, in seconds. -/
def gracefulTimeout : Nat := 10

/-- The post-kill wait of process.wait(timeout=5) in build.py, in seconds. -/
def forcedTimeout : Nat := 5

/-- How the supervised process and the OS react during one stop_background
call, which build.py only observes through psutil. -/
structure StopBehavior where
  /-- psutil.Process(pid) or the signal raises NoSuchProcess: the process
  vanished between the liveness check and the signal. -/
  vanishes : Bool
  /-- Signaling or killing raises an OS error other than NoSuchProcess. -/
  signalErr : Bool
  /-- some t: the process exits t seconds after the graceful termination
  request; none: it ignores the request. -/
  termExit : Option Nat
  /-- The forceful kill takes effect within the second bounded wait. -/
  killWorks : Bool

/-- The process exits within the graceful wait, so process.wait(timeout=10)
returns instead of raising TimeoutExpired. -/
def exitsWithinGrace (b : StopBehavior) : Bool :=
  match b.termExit with
  | some t => decide (t ≤ gracefulTimeout)
  | none => false

/-- Result of one stop_background call: the state after the call, the
printed outcome, and the timed signal trace (seconds after the graceful
request was issued). -/
structure StopResult where
  world : World
  outcome : StopOutcome
  trace : List (Nat × SigEvent)

/-- Body of build.py stop_background (lines 309-340) once get_running_pid
has produced a truthy pid: terminate/SIGTERM, wait up to 10 s, on
TimeoutExpired kill and wait up to 5 s; unlink the pid file afterwards.
NoSuchProcess prints "Process already stopped" and unlinks; any other
exception (including TimeoutExpired from the post-kill wait) reaches the
generic handler, which prints an error and calls sys.exit(1) without
touching the pid file. -/
def stopLive (w1 : World) (pid : Nat) (b : StopBehavior) : StopResult :=
  if b.vanishes then ⟨clearPid w1, StopOutcome.alreadyStopped, []⟩
  else if b.signalErr then ⟨w1, StopOutcome.failed, []⟩
  else if exitsWithinGrace b then
    ⟨clearPid (setDead w1 pid), StopOutcome.graceful, [(0, SigEvent.termSignal pid)]⟩
  else if b.killWorks then
    ⟨clearPid (setDead w1 pid), StopOutcome.forced,
      [(0, SigEvent.termSignal pid), (gracefulTimeout, SigEvent.killSignal pid)]⟩
  else
    ⟨w1, StopOutcome.failed,
      [(0, SigEvent.termSignal pid), (gracefulTimeout, SigEvent.killSignal pid)]⟩

/-- build.py stop_background (lines 299-340): read the handle through
get_running_pid; a falsy pid (none, or 0 under Python truthiness) prints
"No running application found" and returns; otherwise run the
signal-wait-kill protocol of stopLive. -/
def stop_background (w : World) (b : StopBehavior) : StopResult :=
  match get_running_pid w with
  | (w1, none) => ⟨w1, StopOutcome.nothingToStop, []⟩
  | (w1, some pid) =>
    if pid = 0 then ⟨w1, StopOutcome.nothingToStop, []⟩
    else stopLive w1 pid b

/-- Two stop_background calls in immediate succession, the second against
the state the first one left behind. -/
def stopTwice (w : World) (b : StopBehavior) : StopResult :=
  stop_background (stop_background w b).world b

/-- What start_background prints: already running, started and still alive
after the 3 s grace sleep, or started but dead at the grace check. -/
inductive StartReport
  | alreadyRunning
  | startedOk (pid : Nat)
  | startedButDied (pid : Nat)
deriving DecidableEq

/-- The OS side of one launch: the pid Popen assigns to the new child and
whether that child is still alive when the 3 s grace sleep ends. -/
structure StartBehavior where
  newPid : Nat
  aliveAfterGrace : Bool

/-- Result of one start_background call. -/
structure StartResult where
  world : World
  launched : Option Nat
  report : StartReport

/-- Launch path of build.py start_background (lines 253-296): open the log
file in write mode (truncating it), Popen the detached child, write the
new pid to the handle file, sleep 3 s, then probe the child once to pick
the success or early-failure message.  The log is modelled as its contents
when start_background returns. -/
def startLaunch (w1 : World) (b : StartBehavior) : StartResult :=
  let w2 : World := { w1 with log := [] }
  let w3 : World :=
    { w2 with
      pidFile := some (toString b.newPid),
      probe := fun q =>
        if q = b.newPid then
          (if b.aliveAfterGrace then ProcProbe.running else ProcProbe.noSuch)
        else w2.probe q }
  if is_process_running w3 b.newPid then ⟨w3, some b.newPid, StartReport.startedOk b.newPid⟩
  else ⟨w3, some b.newPid, StartReport.startedButDied b.newPid⟩

/-- build.py start_background (lines 244-296): a truthy existing pid from
get_running_pid prints "Application is already running" and returns before
the log file is opened; otherwise the launch path runs.  Python truthiness
sends pid 0 into the launch path. -/
def start_background (w : World) (b : StartBehavior) : StartResult :=
  match get_running_pid w with
  | (w1, some pid) =>
    if pid = 0 then startLaunch w1 b else ⟨w1, none, StartReport.alreadyRunning⟩
  | (w1, none) => startLaunch w1 b

/-- How one psutil proc.kill() call in the reaper loop ends. -/
inductive KillOutcome
  | ok
  | vanished
  | denied
deriving DecidableEq

/-- One entry of the psutil.process_iter enumeration: pid, name, the
cmdline list (none when psutil could not read it), and how kill() on it
would end. -/
structure ProcEntry where
  pid : Nat
  name : String
  cmdline : Option (List String)
  killOutcome : KillOutcome
deriving DecidableEq

/-- needle occurs as a contiguous substring of the character list. -/
def containsSub (needle : List Char) : List Char → Bool
  | [] => needle.isEmpty
  | c :: cs => needle.isPrefixOf (c :: cs) || containsSub needle cs

/-- String containment, the Python `in` operator on str. -/
def strContains (hay needle : String) : Bool := containsSub needle.data hay.data

/-- build.py line 194: ' '.join(proc.info['cmdline'] or []). -/
def joinedCmdline (p : ProcEntry) : String := " ".intercalate (p.cmdline.getD [])

/-- build.py line 195: the process counts as a stale test worker when its
joined cmdline contains 'testhost' case-insensitively or
'Riddle.Web.IntegrationTests' case-sensitively. -/
def testMarker (p : ProcEntry) : Bool :=
  strContains (joinedCmdline p).toLower "testhost" ||
    strContains (joinedCmdline p) "Riddle.Web.IntegrationTests"

/-- kill() returned normally (the per-process NoSuchProcess and
AccessDenied failures are swallowed by the loop's except clause). -/
def killSucceeded (p : ProcEntry) : Bool :=
  match p.killOutcome with
  | KillOutcome.ok => true
  | _ => false

/-- Result of the reaper scan: the returned count of processes killed and
the pids on which kill() was attempted. -/
structure ReapResult where
  killed : Nat
  attempted : List Nat
deriving DecidableEq

/-- build.py kill_test_processes (lines 189-201): iterate over every
enumerated process; on a marker match attempt kill() and increment the
counter only if it returns; NoSuchProcess and AccessDenied are swallowed
and the scan continues with the remaining processes. -/
def kill_test_processes : List ProcEntry → ReapResult
  | [] => ⟨0, []⟩
  | p :: ps =>
    let rest := kill_test_processes ps
    if testMarker p then
      match p.killOutcome with
      | KillOutcome.ok => ⟨rest.killed + 1, p.pid :: rest.attempted⟩
      | _ => ⟨rest.killed, p.pid :: rest.attempted⟩
    else rest

/-- The orchestrated operations routed through run_dotnet_command. -/
inductive Cmd
  | build
  | publish
  | watch
  | run
  | start
  | test
deriving DecidableEq

/-- The external toolchain invocations run_dotnet_command performs. -/
inductive Tool
  | buildTool
  | publishTool
  | watchTool
  | runTool
  | testTool
deriving DecidableEq

/-- Completion status of each external toolchain invocation: true means the
command completed with exit status zero. -/
structure Toolchain where
  buildOk : Bool
  publishOk : Bool
  watchOk : Bool
  runOk : Bool
  testOk : Bool

/-- Observable steps of one run_dotnet_command invocation, in order: a
completed stop_background pre-step with its outcome, a completed reaper
scan with its returned count, an external toolchain invocation, a
background launch performed by start_background. -/
inductive OrchEvent
  | stopDone (o : StopOutcome)
  | reapDone (n : Nat)
  | invoke (t : Tool)
  | launch (p : Nat)
deriving DecidableEq

/-- Result of one run_dotnet_command invocation: final state, process exit
code, the operation named in an "Error: Failed to ... project" message if
one was printed, the ordered event list, and the pid launched by a start
post-step. -/
structure OrchResult where
  world : World
  exitCode : Nat
  failureReport : Option Cmd
  events : List OrchEvent
  launched : Option Nat

/-- The shared pre-step of the build, start and test branches (build.py
lines 375-379, 389-393 and 404-408): read the handle once and, when the
pid is truthy, call stop_background.  The third component records whether
that stop died through sys.exit(1), which aborts the whole invocation. -/
def autoStop (w : World) (b : StopBehavior) : World × List OrchEvent × Bool :=
  match get_running_pid w with
  | (w1, some pid) =>
    if pid = 0 then (w1, [], false)
    else
      let r := stop_background w1 b
      (r.world, [OrchEvent.stopDone r.outcome], if r.outcome = StopOutcome.failed then true else false)
  | (w1, none) => (w1, [], false)

/-- The launch event contributed by a start post-step. -/
def launchEvents : Option Nat → List OrchEvent
  | some p => [OrchEvent.launch p]
  | none => []

/-- build.py run_dotnet_command (lines 343-448).  publish, build and test
use subprocess.run(..., check=True): a non-zero completion raises
CalledProcessError, and the bottom handler prints "Error: Failed to
{command} project" and calls sys.exit(1).  watch and run call
subprocess.run without check=True, so their completion status is ignored
and the invocation falls through with exit code 0.  build, start and test
first run the autoStop pre-step; start then builds (check=True) and only
on success calls start_background; test reaps stale test processes before
invoking the test toolchain. -/
def run_dotnet_command (w : World) (c : Cmd) (tc : Toolchain) (sb : StopBehavior)
    (stb : StartBehavior) (ps : List ProcEntry) : OrchResult :=
  match c with
  | Cmd.publish =>
    if tc.publishOk then ⟨w, 0, none, [OrchEvent.invoke Tool.publishTool], none⟩
    else ⟨w, 1, some Cmd.publish, [OrchEvent.invoke Tool.publishTool], none⟩
  | Cmd.watch => ⟨w, 0, none, [OrchEvent.invoke Tool.watchTool], none⟩
  | Cmd.run => ⟨w, 0, none, [OrchEvent.invoke Tool.runTool], none⟩
  | Cmd.build =>
    let a := autoStop w sb
    if a.2.2 then ⟨a.1, 1, none, a.2.1, none⟩
    else if tc.buildOk then ⟨a.1, 0, none, a.2.1 ++ [OrchEvent.invoke Tool.buildTool], none⟩
    else ⟨a.1, 1, some Cmd.build, a.2.1 ++ [OrchEvent.invoke Tool.buildTool], none⟩
  | Cmd.start =>
    let a := autoStop w sb
    if a.2.2 then ⟨a.1, 1, none, a.2.1, none⟩
    else if tc.buildOk then
      let r := start_background a.1 stb
      ⟨r.world, 0, none,
        a.2.1 ++ [OrchEvent.invoke Tool.buildTool] ++ launchEvents r.launched, r.launched⟩
    else ⟨a.1, 1, some Cmd.start, a.2.1 ++ [OrchEvent.invoke Tool.buildTool], none⟩
  | Cmd.test =>
    let a := autoStop w sb
    if a.2.2 then ⟨a.1, 1, none, a.2.1, none⟩
    else
      let k := kill_test_processes ps
      if tc.testOk then
        ⟨a.1, 0, none, a.2.1 ++ [OrchEvent.reapDone k.killed, OrchEvent.invoke Tool.testTool], none⟩
      else
        ⟨a.1, 1, some Cmd.test, a.2.1 ++ [OrchEvent.reapDone k.killed, OrchEvent.invoke Tool.testTool], none⟩

/-- Handle file absent: get_running_pid leaves the state alone. -/
def wEmpty : World := ⟨none, false, ["old line"], fun _ => ProcProbe.noSuch⟩

/-- Handle file holds "42" and process 42 is alive. -/
def wRun : World :=
  ⟨some "42", false, ["old line"], fun q => if q = 42 then ProcProbe.running else ProcProbe.noSuch⟩

/-- Handle file holds the spec's stale-scenario pid, no such process. -/
def wStale : World := ⟨some "999999999", false, [], fun _ => ProcProbe.noSuch⟩

/-- Handle file with contents int() rejects. -/
def wAbc : World := ⟨some "abc", false, [], fun _ => ProcProbe.noSuch⟩

/-- Handle file holds "7" but process 7 does not exist. -/
def wDead7 : World := ⟨some "7", false, [], fun _ => ProcProbe.noSuch⟩

/-- Every pid probes as a zombie. -/
def wZombie : World := ⟨none, false, [], fun _ => ProcProbe.zombie⟩

/-- Every probe is denied by OS permissions. -/
def wDenied : World := ⟨none, false, [], fun _ => ProcProbe.denied⟩

/-- Every pid probes as running. -/
def wAllRun : World := ⟨none, false, [], fun _ => ProcProbe.running⟩

/-- A stop environment with no OS failures whose process ignores the
graceful request but dies to the kill. -/
def sbStubborn : StopBehavior := ⟨false, false, none, true⟩

/-- A stop environment with no OS failures whose process exits two seconds
after the graceful request. -/
def sbMeek : StopBehavior := ⟨false, false, some 2, true⟩

/-- Every external toolchain invocation completes with non-zero status. -/
def tcAllFail : Toolchain := ⟨false, false, false, false, false⟩

/-- A launch that assigns pid 1234 and survives the grace sleep. -/
def stbFresh : StartBehavior := ⟨1234, true⟩

theorem is_process_running_eq_true (w : World) (p : Nat)
    (h : w.probe p = ProcProbe.running) : is_process_running w p = true := by
  unfold is_process_running
  rw [h]

theorem is_process_running_eq_false (w : World) (p : Nat)
    (h : w.probe p ≠ ProcProbe.running) : is_process_running w p = false := by
  unfold is_process_running
  cases hp : w.probe p <;> simp_all

theorem grp_absent (w : World) (h : w.pidFile = none) : get_running_pid w = (w, none) := by
  unfold get_running_pid
  rw [h]

theorem grp_of_running (w : World) (s : String) (i : Int)
    (hfile : w.pidFile = some s) (hrf : w.readFails = false)
    (hp : pyParseInt (pyStrip s) = some i) (hnn : 0 ≤ i)
    (hrun : w.probe i.toNat = ProcProbe.running) :
    get_running_pid w = (w, some i.toNat) := by
  unfold get_running_pid
  rw [hfile]
  simp [hrf, hp, is_process_running_eq_true w i.toNat hrun, Int.not_lt.mpr hnn]

theorem grp_of_dead (w : World) (s : String) (i : Int)
    (hfile : w.pidFile = some s) (hrf : w.readFails = false)
    (hp : pyParseInt (pyStrip s) = some i) (hnn : 0 ≤ i)
    (hdead : w.probe i.toNat ≠ ProcProbe.running) :
    get_running_pid w = (clearPid w, none) := by
  unfold get_running_pid
  rw [hfile]
  simp [hrf, hp, is_process_running_eq_false w i.toNat hdead, Int.not_lt.mpr hnn]

theorem grp_unparsable (w : World) (s : String)
    (hfile : w.pidFile = some s) (hrf : w.readFails = false)
    (hp : pyParseInt (pyStrip s) = none) :
    get_running_pid w = (w, none) := by
  unfold get_running_pid
  rw [hfile]
  simp [hrf, hp]

theorem stop_on_absent (w : World) (b : StopBehavior) (h : w.pidFile = none) :
    stop_background w b = ⟨w, StopOutcome.nothingToStop, []⟩ := by
  simp [stop_background, grp_absent w h]

theorem stopLive_not_failed (w1 : World) (pid : Nat) (b : StopBehavior)
    (hse : b.signalErr = false) (hk : b.killWorks = true) :
    (stopLive w1 pid b).outcome ≠ StopOutcome.failed := by
  unfold stopLive
  split_ifs <;> simp_all

theorem stop_not_failed (w : World) (b : StopBehavior)
    (hse : b.signalErr = false) (hk : b.killWorks = true) :
    (stop_background w b).outcome ≠ StopOutcome.failed := by
  unfold stop_background
  rcases hg : get_running_pid w with ⟨w1, r⟩
  cases r with
  | none => simp
  | some pid =>
    by_cases hz : pid = 0
    · simp [hz]
    · simpa [hz] using stopLive_not_failed w1 pid b hse hk

theorem autoStop_not_aborted (w : World) (b : StopBehavior)
    (hse : b.signalErr = false) (hk : b.killWorks = true) :
    (autoStop w b).2.2 = false := by
  unfold autoStop
  rcases hg : get_running_pid w with ⟨w1, r⟩
  cases r with
  | none => rfl
  | some pid =>
    by_cases hz : pid = 0
    · simp [hz]
    · simp [hz, stop_not_failed w1 b hse hk]

theorem autoStop_no_launch (w : World) (b : StopBehavior) (p : Nat) :
    OrchEvent.launch p ∉ (autoStop w b).2.1 := by
  unfold autoStop
  rcases hg : get_running_pid w with ⟨w1, r⟩
  cases r with
  | none => simp
  | some pid =>
    by_cases hz : pid = 0
    · simp [hz]
    · simp [hz]

theorem autoStop_of_none (w : World) (b : StopBehavior) (h : (get_running_pid w).2 = none) :
    autoStop w b = ((get_running_pid w).1, [], false) := by
  unfold autoStop
  rcases hg : get_running_pid w with ⟨w1, r⟩
  cases r with
  | none => rfl
  | some pid => simp [hg] at h

theorem stop_of_running (w : World) (b : StopBehavior) (s : String) (i : Int)
    (hfile : w.pidFile = some s) (hrf : w.readFails = false)
    (hp : pyParseInt (pyStrip s) = some i) (hpos : 0 < i)
    (hrun : w.probe i.toNat = ProcProbe.running)
    (hv : b.vanishes = false) (hse : b.signalErr = false) (hk : b.killWorks = true) :
    (stop_background w b).outcome ≠ StopOutcome.failed ∧
    (stop_background w b).world = clearPid (setDead w i.toNat) := by
  have hg := grp_of_running w s i hfile hrf hp (le_of_lt hpos) hrun
  have hne : i.toNat ≠ 0 := by omega
  cases hexit : exitsWithinGrace b <;>
    simp [stop_background, hg, hne, stopLive, hv, hse, hexit, hk]

theorem autoStop_of_running (w : World) (b : StopBehavior) (s : String) (i : Int)
    (hfile : w.pidFile = some s) (hrf : w.readFails = false)
    (hp : pyParseInt (pyStrip s) = some i) (hpos : 0 < i)
    (hrun : w.probe i.toNat = ProcProbe.running)
    (hv : b.vanishes = false) (hse : b.signalErr = false) (hk : b.killWorks = true) :
    autoStop w b =
      ((stop_background w b).world, [OrchEvent.stopDone (stop_background w b).outcome], false) := by
  have hg := grp_of_running w s i hfile hrf hp (le_of_lt hpos) hrun
  have hne : i.toNat ≠ 0 := by omega
  have hnf := (stop_of_running w b s i hfile hrf hp hpos hrun hv hse hk).1
  unfold autoStop
  rw [hg]
  simp [hne, hnf]

theorem startLaunch_log (w1 : World) (b : StartBehavior) :
    (startLaunch w1 b).world.log = [] := by
  unfold startLaunch
  dsimp only
  repeat' split
  all_goals rfl

theorem startLaunch_launched (w1 : World) (b : StartBehavior) :
    (startLaunch w1 b).launched = some b.newPid := by
  unfold startLaunch
  dsimp only
  repeat' split
  all_goals rfl

/-- C8: the liveness prober is total and never throws: for every process id
it returns a boolean, false when the process does not exist, false when it
exists but is a zombie, false when the lookup is denied by OS permissions,
and true otherwise.  Totality and exception freedom are captured by
is_process_running being a plain Bool-valued function of the probe
outcome; the four conjuncts cover its whole contract. -/
theorem liveness_prober_contract (w : World) (pid : Nat) :
    (w.probe pid = ProcProbe.noSuch → is_process_running w pid = false) ∧
    (w.probe pid = ProcProbe.zombie → is_process_running w pid = false) ∧
    (w.probe pid = ProcProbe.denied → is_process_running w pid = false) ∧
    (w.probe pid = ProcProbe.running → is_process_running w pid = true) := by
  refine ⟨fun h => ?_, fun h => ?_, fun h => ?_, fun h => ?_⟩ <;>
    simp [is_process_running, h]

/-- Witness for C8 at concrete probe outcomes. -/
theorem liveness_prober_contract_witness :
    is_process_running wEmpty 7 = false ∧ is_process_running wZombie 7 = false ∧
    is_process_running wDenied 7 = false ∧ is_process_running wAllRun 7 = true :=
  ⟨(liveness_prober_contract wEmpty 7).1 rfl, (liveness_prober_contract wZombie 7).2.1 rfl,
   (liveness_prober_contract wDenied 7).2.2.1 rfl, (liveness_prober_contract wAllRun 7).2.2.2 rfl⟩

/-- C5: for every handle file whose contents parse as the id of a process
that does not exist or is a zombie, check_status reports not running and,
as a side effect, the handle file is removed. -/
theorem stale_handle_self_healing (w : World) (s : String) (i : Int)
    (hfile : w.pidFile = some s) (hrf : w.readFails = false)
    (hp : pyParseInt (pyStrip s) = some i) (hnn : 0 ≤ i)
    (hdead : w.probe i.toNat = ProcProbe.noSuch ∨ w.probe i.toNat = ProcProbe.zombie) :
    (check_status w).2 = StatusReport.notRunning ∧ (check_status w).1.pidFile = none := by
  have hne : w.probe i.toNat ≠ ProcProbe.running := by
    rcases hdead with h | h <;> simp [h]
  have hg := grp_of_dead w s i hfile hrf hp hnn hne
  constructor <;> simp [check_status, hg, clearPid]

/-- Witness for C5: the spec's own stale scenario, pid 999999999. -/
theorem stale_handle_self_healing_witness :
    (check_status wStale).2 = StatusReport.notRunning ∧ (check_status wStale).1.pidFile = none :=
  stale_handle_self_healing wStale "999999999" 999999999 rfl rfl (by decide) (by decide)
    (Or.inl rfl)

/-- C4: start exclusivity.  When the handle file records a (positive,
per the spec's data model) pid that probes as running, a second
start_background call launches no new child, leaves the handle file
byte-for-byte unchanged, and reports the informational already-running
result instead of an error. -/
theorem start_exclusivity (w : World) (b : StartBehavior) (s : String) (i : Int)
    (hfile : w.pidFile = some s) (hrf : w.readFails = false)
    (hp : pyParseInt (pyStrip s) = some i) (hpos : 0 < i)
    (hrun : w.probe i.toNat = ProcProbe.running) :
    (start_background w b).launched = none ∧
    (start_background w b).world.pidFile = some s ∧
    (start_background w b).report = StartReport.alreadyRunning := by
  have hg := grp_of_running w s i hfile hrf hp (le_of_lt hpos) hrun
  have hne : i.toNat ≠ 0 := by omega
  refine ⟨?_, ?_, ?_⟩ <;> simp [start_background, hg, hne, hfile]

/-- Witness for C4 at a running pid 42. -/
theorem start_exclusivity_witness :
    (start_background wRun stbFresh).launched = none ∧
    (start_background wRun stbFresh).world.pidFile = some "42" ∧
    (start_background wRun stbFresh).report = StartReport.alreadyRunning :=
  start_exclusivity wRun stbFresh "42" 42 rfl rfl (by decide) (by decide) (by decide)

/-- C10: when start_background is invoked while a process is already
running it returns before the log file is opened for writing, so the log
contents are unchanged; the log is truncated exactly when a launch
actually occurs. -/
theorem start_already_running_preserves_log (w : World) (b : StartBehavior) :
    (∀ s i, w.pidFile = some s → w.readFails = false →
      pyParseInt (pyStrip s) = some i → 0 < i → w.probe i.toNat = ProcProbe.running →
      (start_background w b).world.log = w.log) ∧
    ((start_background w b).launched.isSome = true →
      (start_background w b).world.log = []) := by
  constructor
  · intro s i hfile hrf hp hpos hrun
    have hg := grp_of_running w s i hfile hrf hp (le_of_lt hpos) hrun
    have hne : i.toNat ≠ 0 := by omega
    simp [start_background, hg, hne]
  · intro h
    rcases hgr : get_running_pid w with ⟨w1, r⟩
    cases r with
    | none => simp [start_background, hgr, startLaunch_log]
    | some pid =>
      by_cases hz : pid = 0
      · simp [start_background, hgr, hz, startLaunch_log]
      · simp [start_background, hgr, hz] at h

/-- Witness for C10: a start against a running pid leaves the log alone. -/
theorem start_already_running_preserves_log_witness :
    (start_background wRun stbFresh).world.log = wRun.log :=
  (start_already_running_preserves_log wRun stbFresh).1 "42" 42 rfl rfl (by decide) (by decide)
    (by decide)

/-- C9: the reaper is a best-effort fold over the whole enumeration: kill
is attempted on exactly the processes whose joined cmdline carries a
test-runner marker, the returned count is the number of those kills that
returned (vanished or access-denied kills are swallowed, do not abort the
scan of the remaining entries, and do not contribute to the count). -/
theorem reaper_fold_characterization (ps : List ProcEntry) :
    (kill_test_processes ps).attempted = (ps.filter testMarker).map (fun p => p.pid) ∧
    (kill_test_processes ps).killed =
      (ps.filter (fun p => testMarker p && killSucceeded p)).length := by
  induction ps with
  | nil => exact ⟨rfl, rfl⟩
  | cons p ps ih =>
    by_cases hm : testMarker p = true
    · cases hk : p.killOutcome <;>
        simp [kill_test_processes, hm, hk, List.filter_cons, killSucceeded, ih.1, ih.2]
    · simp [kill_test_processes, List.filter_cons, hm, ih.1, ih.2]

/-- C2: escalation ordering of stop_background against a live process with
no OS-level signalling failure.  If the process does not exit within the
graceful wait, the forceful kill is issued at time gracefulTimeout (only
after the graceful wait has elapsed, the graceful request having been
issued at time 0) and the reported outcome is forced, not graceful.  If
the process exits within the graceful wait, the outcome is graceful and
the trace contains no kill signal. -/
theorem stop_escalation_ordering (w : World) (b : StopBehavior) (s : String) (i : Int)
    (hfile : w.pidFile = some s) (hrf : w.readFails = false)
    (hp : pyParseInt (pyStrip s) = some i) (hpos : 0 < i)
    (hrun : w.probe i.toNat = ProcProbe.running)
    (hv : b.vanishes = false) (hse : b.signalErr = false) (hk : b.killWorks = true) :
    (exitsWithinGrace b = false →
      (stop_background w b).outcome = StopOutcome.forced ∧
      (stop_background w b).trace =
        [(0, SigEvent.termSignal i.toNat), (gracefulTimeout, SigEvent.killSignal i.toNat)]) ∧
    (exitsWithinGrace b = true →
      (stop_background w b).outcome = StopOutcome.graceful ∧
      (stop_background w b).trace = [(0, SigEvent.termSignal i.toNat)]) := by
  have hg := grp_of_running w s i hfile hrf hp (le_of_lt hpos) hrun
  have hne : i.toNat ≠ 0 := by omega
  constructor
  · intro hexit
    constructor <;> simp [stop_background, hg, hne, stopLive, hv, hse, hexit, hk]
  · intro hexit
    constructor <;> simp [stop_background, hg, hne, stopLive, hv, hse, hexit]

/-- Witness for C2: pid 42, one ignoring process (forced at second 10) and
one that exits after two seconds (graceful). -/
theorem stop_escalation_ordering_witness :
    ((stop_background wRun sbStubborn).outcome = StopOutcome.forced ∧
     (stop_background wRun sbStubborn).trace =
       [(0, SigEvent.termSignal 42), (gracefulTimeout, SigEvent.killSignal 42)]) ∧
    (stop_background wRun sbMeek).outcome = StopOutcome.graceful := by
  constructor
  · exact (stop_escalation_ordering wRun sbStubborn "42" 42 rfl rfl (by decide) (by decide)
      (by decide) rfl rfl rfl).1 rfl
  · exact ((stop_escalation_ordering wRun sbMeek "42" 42 rfl rfl (by decide) (by decide)
      (by decide) rfl rfl rfl).2 rfl).1

/-- C3 counterexample: a handle file whose contents int() rejects.  Both
stop calls report nothing to stop (the second call does not fail), but the
persisted handle file still exists after the two calls, so the claim that
two stops always leave no persisted handle is false as stated. -/
theorem stop_twice_leaves_unparsable_handle :
    (stopTwice wAbc sbStubborn).outcome = StopOutcome.nothingToStop ∧
    (stopTwice wAbc sbStubborn).world.pidFile ≠ none := by
  constructor
  · decide
  · decide

/-- C3 amended: for every state whose handle file is absent or readable
with contents parsing as a positive pid, and every stop environment with
no OS-level signal failure, two stop_background calls in succession leave
the second reporting nothing to stop (not an error) and no persisted
handle; with unreadable or unparsable handle contents the second call
still reports nothing to stop but build.py leaves the file in place. -/
theorem stop_twice_idempotent (w : World) (b : StopBehavior)
    (hrf : w.readFails = false)
    (hfile : w.pidFile = none ∨
      ∃ s i, w.pidFile = some s ∧ pyParseInt (pyStrip s) = some i ∧ 0 < i)
    (hse : b.signalErr = false) (hk : b.killWorks = true) :
    (stopTwice w b).outcome = StopOutcome.nothingToStop ∧
    (stopTwice w b).world.pidFile = none := by
  have h1 : (stop_background w b).world.pidFile = none := by
    rcases hfile with h | ⟨s, i, hs, hp, hpos⟩
    · rw [stop_on_absent w b h]
      exact h
    · by_cases hrun : w.probe i.toNat = ProcProbe.running
      · have hg := grp_of_running w s i hs hrf hp (le_of_lt hpos) hrun
        have hne : i.toNat ≠ 0 := by omega
        cases hv : b.vanishes with
        | false =>
          cases hexit : exitsWithinGrace b with
          | false => simp [stop_background, hg, hne, stopLive, hv, hse, hexit, hk, clearPid]
          | true => simp [stop_background, hg, hne, stopLive, hv, hse, hexit, clearPid]
        | true => simp [stop_background, hg, hne, stopLive, hv, clearPid]
      · have hg := grp_of_dead w s i hs hrf hp (le_of_lt hpos) hrun
        simp [stop_background, hg, clearPid]
  have h2 := stop_on_absent (stop_background w b).world b h1
  unfold stopTwice
  rw [h2]
  exact ⟨rfl, h1⟩

/-- Witness for C3 amended at a running pid 42. -/
theorem stop_twice_idempotent_witness :
    (stopTwice wRun sbStubborn).outcome = StopOutcome.nothingToStop ∧
    (stopTwice wRun sbStubborn).world.pidFile = none :=
  stop_twice_idempotent wRun sbStubborn rfl
    (Or.inr ⟨"42", 42, rfl, by decide, by decide⟩) rfl rfl

/-- C7 counterexample: the handle file exists and its contents "7" parse
as the non-negative integer 7, yet get_running_pid returns absent because
process 7 does not exist, so the id is not returned exactly when the file
exists and parses as a non-negative integer. -/
theorem read_returns_absent_for_dead_pid :
    wDead7.pidFile = some "7" ∧
    pyParseInt (pyStrip "7") = some 7 ∧
    (get_running_pid wDead7).2 = none := by
  refine ⟨rfl, by decide, by decide⟩

/-- C7 amended: reading the handle through get_running_pid returns a pid
exactly when the handle file exists, reading it succeeds, its contents
parse as a non-negative integer, and that process currently probes as
running; in every other case (file absent, unreadable, unparsable or
negative contents, or a dead, zombie or access-denied process) the read
returns absent, and it never raises: it is a total function into an
option. -/
theorem get_running_pid_characterization (w : World) (p : Nat) :
    (get_running_pid w).2 = some p ↔
      ∃ s i, w.pidFile = some s ∧ w.readFails = false ∧
        pyParseInt (pyStrip s) = some i ∧ 0 ≤ i ∧ i.toNat = p ∧
        w.probe p = ProcProbe.running := by
  constructor
  · intro h
    rcases hfile : w.pidFile with _ | s
    · rw [grp_absent w hfile] at h
      simp at h
    · by_cases hrf : w.readFails = true
      · have hnone : get_running_pid w = (w, none) := by
          unfold get_running_pid
          rw [hfile]
          simp [hrf]
        rw [hnone] at h
        simp at h
      · have hrf2 : w.readFails = false := by simpa using hrf
        rcases hp : pyParseInt (pyStrip s) with _ | i
        · rw [grp_unparsable w s hfile hrf2 hp] at h
          simp at h
        · by_cases hneg : i < 0
          · have hnone : get_running_pid w = (w, none) := by
              unfold get_running_pid
              rw [hfile]
              simp [hrf2, hp, hneg]
            rw [hnone] at h
            simp at h
          · have hnn : 0 ≤ i := by omega
            by_cases hrun : w.probe i.toNat = ProcProbe.running
            · rw [grp_of_running w s i hfile hrf2 hp hnn hrun] at h
              simp at h
              exact ⟨s, i, rfl, hrf2, hp, hnn, h, h ▸ hrun⟩
            · rw [grp_of_dead w s i hfile hrf2 hp hnn hrun] at h
              simp at h
  · rintro ⟨s, i, hfile, hrf, hp, hnn, hip, hrun⟩
    subst hip
    rw [grp_of_running w s i hfile hrf hp hnn hrun]

/-- C6: pre-flight stop before build.  When the handle records a positive
pid that probes as running (and the stop environment has no OS failure),
the build operation performs exactly one completed stop_background call
before the build toolchain invocation: the event list is exactly one
non-failed stopDone followed by the build invocation, and the state handed
to the toolchain has no handle file and no longer probes the old pid as
running.  When the handle read yields no running process, no stop call is
made and the build toolchain is invoked directly. -/
theorem preflight_stop_before_build (w : World) (tc : Toolchain) (sb : StopBehavior)
    (stb : StartBehavior) (ps : List ProcEntry) :
    (∀ s i, w.pidFile = some s → w.readFails = false →
      pyParseInt (pyStrip s) = some i → 0 < i → w.probe i.toNat = ProcProbe.running →
      sb.vanishes = false → sb.signalErr = false → sb.killWorks = true →
      (run_dotnet_command w Cmd.build tc sb stb ps).events =
        [OrchEvent.stopDone (stop_background w sb).outcome, OrchEvent.invoke Tool.buildTool] ∧
      (stop_background w sb).outcome ≠ StopOutcome.failed ∧
      (stop_background w sb).world.pidFile = none ∧
      (stop_background w sb).world.probe i.toNat = ProcProbe.noSuch) ∧
    ((get_running_pid w).2 = none →
      (run_dotnet_command w Cmd.build tc sb stb ps).events = [OrchEvent.invoke Tool.buildTool]) := by
  constructor
  · intro s i hfile hrf hp hpos hrun hv hse hk
    have ha := autoStop_of_running w sb s i hfile hrf hp hpos hrun hv hse hk
    have hs := stop_of_running w sb s i hfile hrf hp hpos hrun hv hse hk
    refine ⟨?_, hs.1, ?_, ?_⟩
    · cases htc : tc.buildOk <;> simp [run_dotnet_command, ha, htc]
    · rw [hs.2]
      rfl
    · rw [hs.2]
      simp [clearPid, setDead]
  · intro h
    have ha := autoStop_of_none w sb h
    cases htc : tc.buildOk <;> simp [run_dotnet_command, ha, htc]

/-- Witness for C6: a running pid 42 gives stop-then-build; an absent
handle gives build with no stop. -/
theorem preflight_stop_before_build_witness :
    (run_dotnet_command wRun Cmd.build tcAllFail sbStubborn stbFresh []).events =
      [OrchEvent.stopDone (stop_background wRun sbStubborn).outcome,
       OrchEvent.invoke Tool.buildTool] ∧
    (run_dotnet_command wEmpty Cmd.build tcAllFail sbStubborn stbFresh []).events =
      [OrchEvent.invoke Tool.buildTool] := by
  constructor
  · exact ((preflight_stop_before_build wRun tcAllFail sbStubborn stbFresh []).1 "42" 42 rfl rfl
      (by decide) (by decide) (by decide) rfl rfl rfl).1
  · exact (preflight_stop_before_build wEmpty tcAllFail sbStubborn stbFresh []).2 (by decide)

/-- C1 counterexample: the run operation invokes the toolchain without
checking its completion status, so a non-zero toolchain completion leaves
the CLI exiting 0 with no failure report, contradicting the claim for the
operation set that includes run (and likewise watch). -/
theorem run_failure_exits_zero :
    tcAllFail.runOk = false ∧
    (run_dotnet_command wEmpty Cmd.run tcAllFail sbStubborn stbFresh []).exitCode = 0 ∧
    (run_dotnet_command wEmpty Cmd.run tcAllFail sbStubborn stbFresh []).failureReport = none :=
  ⟨rfl, rfl, rfl⟩

/-- C1 amended: for the operations whose toolchain invocation is checked -
build, publish, start and test - a non-zero toolchain completion makes the
CLI exit 1 with an operation-specific failure report and the post-step is
not attempted: in particular a failed build during start launches nothing.
For run and watch the completion status is not checked and the CLI exits
zero. -/
theorem checked_commands_fail_nonzero (w : World) (tc : Toolchain) (sb : StopBehavior)
    (stb : StartBehavior) (ps : List ProcEntry)
    (hse : sb.signalErr = false) (hk : sb.killWorks = true) :
    (tc.buildOk = false →
      (run_dotnet_command w Cmd.build tc sb stb ps).exitCode = 1 ∧
      (run_dotnet_command w Cmd.build tc sb stb ps).failureReport = some Cmd.build) ∧
    (tc.publishOk = false →
      (run_dotnet_command w Cmd.publish tc sb stb ps).exitCode = 1 ∧
      (run_dotnet_command w Cmd.publish tc sb stb ps).failureReport = some Cmd.publish) ∧
    (tc.buildOk = false →
      (run_dotnet_command w Cmd.start tc sb stb ps).exitCode = 1 ∧
      (run_dotnet_command w Cmd.start tc sb stb ps).failureReport = some Cmd.start ∧
      (run_dotnet_command w Cmd.start tc sb stb ps).launched = none ∧
      ∀ p, OrchEvent.launch p ∉ (run_dotnet_command w Cmd.start tc sb stb ps).events) ∧
    (tc.testOk = false →
      (run_dotnet_command w Cmd.test tc sb stb ps).exitCode = 1 ∧
      (run_dotnet_command w Cmd.test tc sb stb ps).failureReport = some Cmd.test) := by
  have hns := autoStop_not_aborted w sb hse hk
  refine ⟨fun hb => ?_, fun hpub => ?_, fun hb => ?_, fun ht => ?_⟩
  · constructor <;> simp [run_dotnet_command, hns, hb]
  · constructor <;> simp [run_dotnet_command, hpub]
  · refine ⟨?_, ?_, ?_, fun p => ?_⟩
    · simp [run_dotnet_command, hns, hb]
    · simp [run_dotnet_command, hns, hb]
    · simp [run_dotnet_command, hns, hb]
    · simp [run_dotnet_command, hns, hb, autoStop_no_launch w sb p]
  · constructor <;> simp [run_dotnet_command, hns, ht]

/-- Witness for C1 amended: with every toolchain call failing, build exits
1 with a build failure report and start launches nothing. -/
theorem checked_commands_fail_nonzero_witness :
    (run_dotnet_command wEmpty Cmd.build tcAllFail sbStubborn stbFresh []).exitCode = 1 ∧
    (run_dotnet_command wEmpty Cmd.build tcAllFail sbStubborn stbFresh []).failureReport =
      some Cmd.build ∧
    (run_dotnet_command wEmpty Cmd.start tcAllFail sbStubborn stbFresh []).launched = none := by
  have h := checked_commands_fail_nonzero wEmpty tcAllFail sbStubborn stbFresh [] rfl rfl
  exact ⟨(h.1 rfl).1, (h.1 rfl).2, (h.2.2.1 rfl).2.2.1⟩
